import Mathlib

/-!
Verification of the SFTP stream layer of ssh2-cpp.

This file embeds, shallowly, the pure logic of the library's SFTP stream
engine and session lifetime management:

* `openmode` and `openmode_to_libssh2_flags` — the open-mode configuration
  bit-set and its translation to `LIBSSH2_FXF_*` protocol flags
  (stream header, `detail::openmode_to_libssh2_flags`);
* `open_input_file_mode` / `open_output_file_mode` / `sftp_io_device_mode` —
  the effective open mode each device class passes to `detail::open_file`;
* `seek` — the three-reference-point seek arithmetic of `detail::seek`,
  with 64-bit unsigned/signed mixing modelled exactly;
* `read_loop` / `write_loop` — the full-transfer loops of `detail::read`
  and `detail::write`, with the underlying libssh2 transfer primitive
  abstracted as a sequence of per-call results;
* `session_state_ctor` / `session_state_dtor` — the allocate/handshake/free
  lifecycle of `ssh::detail::session_state`, with libssh2 calls abstracted
  as an emitted event trace.

Exceptions are modelled with `Except`; network calls are modelled as
explicit events so that "before any network call" and "exactly once"
claims are statable.
-/

deriving instance DecidableEq for Except

namespace Ssh2Cpp

/-- The `LIBSSH2_FXF_*` open-flag constants from `libssh2_sftp.h`
(the values of `SSH_FXF_*` in the SFTP protocol drafts). -/
def LIBSSH2_FXF_READ : Nat := 0x01

/-- Constant `LIBSSH2_FXF_WRITE` from `libssh2_sftp.h`. -/
def LIBSSH2_FXF_WRITE : Nat := 0x02

/-- Constant `LIBSSH2_FXF_APPEND` from `libssh2_sftp.h`. -/
def LIBSSH2_FXF_APPEND : Nat := 0x04

/-- Constant `LIBSSH2_FXF_CREAT` from `libssh2_sftp.h`. -/
def LIBSSH2_FXF_CREAT : Nat := 0x08

/-- Constant `LIBSSH2_FXF_TRUNC` from `libssh2_sftp.h`. -/
def LIBSSH2_FXF_TRUNC : Nat := 0x10

/-- Constant `LIBSSH2_FXF_EXCL` from `libssh2_sftp.h`. -/
def LIBSSH2_FXF_EXCL : Nat := 0x20

/-- Test `flags & flag != 0`: the bitmask `flags` contains the single-bit
flag `f`.  Mirrors the `&` tests the C++ code uses on flag words. -/
def has_flag (flags f : Nat) : Bool := flags &&& f != 0

/-- The translation returned normally (no exception thrown). -/
def result_is_ok (r : Except String Nat) : Bool :=
  match r with
  | .ok _ => true
  | .error _ => false

/-- The translation returned normally with a flag word containing `f`. -/
def result_has_flag (r : Except String Nat) (f : Nat) : Bool :=
  match r with
  | .ok flags => has_flag flags f
  | .error _ => false

/-- Model of `ssh::sftp::openmode`: the open-mode configuration.  In the source it
is a bit-set (`in`/`out`/`app`/`trunc` taken from `std::ios_base`,
`nocreate = 0x40`, `noreplace = 0x80`, all distinct single bits, combined
and tested only with bitwise operators), so a record of Booleans is an
exact model. -/
structure openmode where
  «in» : Bool
  out : Bool
  app : Bool
  trunc : Bool
  nocreate : Bool
  noreplace : Bool
  deriving DecidableEq, Fintype, Repr

/-- Model of `detail::openmode_to_libssh2_flags`: translates an open-mode
configuration to `LIBSSH2_FXF_*` flags.  `Except.error` models the
`BOOST_THROW_EXCEPTION(std::invalid_argument(...))` paths.  The nesting
mirrors the source function statement for statement. -/
def openmode_to_libssh2_flags (opening_mode : openmode) : Except String Nat :=
  let flags : Nat := 0
  let flags := if opening_mode.«in» then flags ||| LIBSSH2_FXF_READ else flags
  if opening_mode.out then
    let flags := flags ||| LIBSSH2_FXF_WRITE
    if opening_mode.«in» then
      -- in flag suppresses creation
      if opening_mode.trunc then
        -- but trunc flag unsuppresses it again
        if !opening_mode.nocreate then
          let flags := flags ||| LIBSSH2_FXF_CREAT
          let flags :=
            if opening_mode.noreplace then flags ||| LIBSSH2_FXF_EXCL else flags
          Except.ok (flags ||| LIBSSH2_FXF_TRUNC)
        else if opening_mode.noreplace then
          Except.error "Cannot combine nocreate and noreplace"
        else
          Except.ok (flags ||| LIBSSH2_FXF_TRUNC)
      else
        Except.ok flags
    else
      -- SFTP write-only opens neither create nor truncate by themselves,
      -- so CREAT/TRUNC are added to mirror C++ fstream behaviour
      if !opening_mode.nocreate then
        let flags := flags ||| LIBSSH2_FXF_CREAT
        let flags :=
          if opening_mode.noreplace then flags ||| LIBSSH2_FXF_EXCL else flags
        if opening_mode.app then
          Except.ok (flags ||| LIBSSH2_FXF_APPEND)
        else
          Except.ok (flags ||| LIBSSH2_FXF_TRUNC)
      else if opening_mode.noreplace then
        Except.error "Cannot combine nocreate and noreplace"
      else if opening_mode.app then
        Except.ok (flags ||| LIBSSH2_FXF_APPEND)
      else
        Except.ok (flags ||| LIBSSH2_FXF_TRUNC)
  else
    Except.ok flags

/-- Model of `detail::open_input_file`: it opens with `opening_mode | openmode::in`,
i.e. forces the `in` bit into the effective configuration. -/
def open_input_file_mode (opening_mode : openmode) : openmode :=
  { opening_mode with «in» := true }

/-- Model of `detail::open_output_file`: it opens with `opening_mode | openmode::out`,
i.e. forces the `out` bit into the effective configuration. -/
def open_output_file_mode (opening_mode : openmode) : openmode :=
  { opening_mode with out := true }

/-- The `openmode` constructor of `sftp_io_device` passes `opening_mode` to
`detail::open_file` unchanged — it forces neither `in` nor `out`. -/
def sftp_io_device_mode (opening_mode : openmode) : openmode :=
  opening_mode

/-- The default argument of `sftp_io_device`'s `openmode` constructor:
`openmode::in | openmode::out`. -/
def sftp_io_device_default_mode : openmode :=
  { «in» := true, out := true, app := false, trunc := false,
    nocreate := false, noreplace := false }

/-! ## Seek (`detail::seek`)

`libssh2_sftp_tell64` and `attributes.filesize` are `libssh2_uint64_t`;
`off` and `new_position` are `boost::iostreams::stream_offset`
(a 64-bit signed integer).  `tell + off` and `filesize + off` are
therefore computed in unsigned 64-bit arithmetic and the result is
converted back to a signed 64-bit value, which is what `u64_add_off`
models exactly.  The network calls the function makes (`fstat` for
end-relative seeks, the low-level `seek64`) are returned as an event
trace. -/

/-- Conversion of a signed 64-bit value to `libssh2_uint64_t`
(reduction mod `2^64`). -/
def toU64 (i : Int) : Nat := (i % (2 ^ 64)).toNat

/-- Conversion of an unsigned 64-bit value (already `< 2^64`) to a signed
64-bit `stream_offset`. -/
def toI64 (n : Nat) : Int :=
  if n < 2 ^ 63 then (n : Int) else (n : Int) - 2 ^ 64

/-- Computes `base + off` as the C++ source does: `base` a
`libssh2_uint64_t`, `off` a signed 64-bit offset, the sum taken in
unsigned 64-bit arithmetic and stored into a signed 64-bit variable. -/
def u64_add_off (base : Nat) (off : Int) : Int :=
  toI64 ((base + toU64 off) % 2 ^ 64)

/-- Network-touching calls made by the stream engine, in order. -/
inductive sftp_effect where
  | fstat_call : sftp_effect
  | seek_call : Nat → sftp_effect
  | open_call : Nat → sftp_effect
  deriving DecidableEq, Repr

/-- The failure outcomes of `detail::seek`: the
`SSH_THROW_LAST_SFTP_ERROR_WITH_PATH` raised when `libssh2_sftp_fstat_ex`
fails, and the `std::logic_error("Cannot seek before start of file")`
raised for a negative computed position. -/
inductive seek_error where
  | fstat_failed : seek_error
  | invalid_seek : seek_error
  deriving DecidableEq, Repr

/-- Reference points for `detail::seek` (`std::ios_base::seekdir`). -/
inductive seekdir where
  | beg : seekdir
  | cur : seekdir
  | «end» : seekdir
  deriving DecidableEq, Repr

/-- Model of `detail::seek`.  `tell` is what `libssh2_sftp_tell64` reports (the
last known position); `fstat` is the outcome of the
`libssh2_sftp_fstat_ex` round trip (`Except.ok size` on success).
Returns the trace of network calls made together with the result:
`Except.ok new_position`, or the raised error.  The `seek_call` event
models `libssh2_sftp_seek64(handle, new_position)`. -/
def seek (tell : Nat) (fstat : Except Unit Nat) (off : Int) (way : seekdir) :
    List sftp_effect × Except seek_error Int :=
  match way with
  | .beg =>
    let new_position := off
    if new_position < 0 then ([], .error .invalid_seek)
    else ([.seek_call new_position.toNat], .ok new_position)
  | .cur =>
    let new_position := u64_add_off tell off
    if new_position < 0 then ([], .error .invalid_seek)
    else ([.seek_call new_position.toNat], .ok new_position)
  | .«end» =>
    match fstat with
    | .error _ => ([.fstat_call], .error .fstat_failed)
    | .ok size =>
      let new_position := u64_add_off size off
      if new_position < 0 then ([.fstat_call], .error .invalid_seek)
      else ([.fstat_call, .seek_call new_position.toNat], .ok new_position)

/-! ## Read and write loops (`detail::read`, `detail::write`)

The underlying transfer primitives (`libssh2_sftp_read` /
`libssh2_sftp_write` via their thin exception wrappers) are abstracted
as the sequence of per-call results they would produce.  For the read
loop a result is a byte count (the wrapper has already turned negative
returns into exceptions before the loop sees them); for the write loop
a result is `some count` or `none` for a call on which the wrapper
raises.  Each loop is a direct translation of the C++ do-while over the
running `count`. -/

/-- The do-while loop of `detail::read`: `rc` is the next primitive result;
`rc == 0` breaks (EOF); otherwise `count += rc` and the loop repeats
while `count < buffer_size`.  Returns the final `count`.  The first
element is always consumed because the C++ loop is do-while. -/
def read_loop : List Nat → Nat → Nat → Nat
  | [], _, count => count
  | rc :: rest, buffer_size, count =>
    if rc = 0 then count
    else
      let count := count + rc
      if count < buffer_size then read_loop rest buffer_size count
      else count

/-- The do-while loop of `detail::write`: each primitive call either accepts
`rc` bytes (`some rc`, and `count += rc`) or raises (`none`, modelled
as a `none` overall result, i.e. the exception propagating out of the
loop).  The loop repeats while `count < data_size`. -/
def write_loop : List (Option Nat) → Nat → Nat → Option Nat
  | [], _, count => some count
  | none :: _, _, _ => none
  | some rc :: rest, data_size, count =>
    let count := count + rc
    if count < data_size then write_loop rest data_size count
    else some count

/-! ## Session lifetime (`ssh::detail::session_state`)

`session_state` owns a raw `LIBSSH2_SESSION*`.  The socket-bound
constructor allocates (`libssh2::session::init`), runs the handshake
(`libssh2::session::startup(m_session, socket, ec, error_message)`),
and on failure frees the allocation itself (`libssh2_session_free`)
before throwing `boost::system::system_error(ec, error_message)`; on
success it records the disconnection message, which is what tells the
destructor that graceful disconnection is needed.  The destructor
disconnects if and only if the message is present, ignoring any error,
and then unconditionally frees.  The libssh2 calls are modelled as an
emitted event trace; the outcome of `startup` and `disconnect` is an
input (the error code the call would report, if any). -/

/-- The libssh2 calls `session_state` makes, in order. -/
inductive session_event where
  | allocate : session_event
  | startup_call : session_event
  | disconnect_call : session_event
  | free_handle : session_event
  deriving DecidableEq, Repr

/-- The fields of `session_state` relevant to lifetime management:
`m_disconnection_message` is `boost::optional<std::string>`, present
exactly when the handshake succeeded. -/
structure session_state where
  m_disconnection_message : Option String
  deriving DecidableEq, Repr

/-- The socket-bound constructor
`session_state(int socket, const std::string& disconnection_message)`.
`startup_ec` is the error code the handshake reports (`some ec` on
failure), `error_message` the accompanying message.  Returns the trace
of libssh2 calls together with either the constructed object or the
thrown `system_error` carrying `(ec, error_message)`. -/
def session_state_ctor (startup_ec : Option Nat) (error_message : String)
    (disconnection_message : String) :
    List session_event × Except (Nat × String) session_state :=
  match startup_ec with
  | some ec =>
    -- Must free session here as destructor won't be called
    ([.allocate, .startup_call, .free_handle], .error (ec, error_message))
  | none =>
    ([.allocate, .startup_call],
     .ok { m_disconnection_message := some disconnection_message })

/-- Model of `~session_state`.  `disconnect_ec` is the error code the
`disconnect` call would report (`some ec` on failure); the destructor
captures it into a local and never reads it, so it cannot influence the
outcome.  The destructor is `throw()`: it only returns a trace of calls,
never an error. -/
def session_state_dtor (st : session_state) (disconnect_ec : Option Nat) :
    List session_event :=
  match st.m_disconnection_message with
  | some _ =>
    -- Ignoring any errors because there's nothing we can do about them
    match disconnect_ec with
    | _ => [.disconnect_call, .free_handle]
  | none => [.free_handle]

/-! ## Helper lemmas -/

/-- When the mathematical sum `base + off` fits in a signed 64-bit value,
the unsigned-then-signed round trip of the C++ addition computes exactly
that sum. -/
theorem u64_add_off_eq (base : Nat) (off : Int)
    (h1 : -(2 ^ 63) ≤ (base : Int) + off)
    (h2 : (base : Int) + off < 2 ^ 63) :
    u64_add_off base off = (base : Int) + off := by
  simp only [u64_add_off, toU64, toI64]
  split <;> omega

/-- A sequence of positive transfer results that exactly exhausts the
remaining `B - count` bytes drives `read_loop` to return `B`. -/
theorem read_loop_fills (p rest : List Nat) (B count : Nat)
    (hpos : ∀ r ∈ p, 0 < r) (hsum : count + p.sum = B) (hlt : count < B) :
    read_loop (p ++ rest) B count = B := by
  induction p generalizing count with
  | nil =>
    simp only [List.sum_nil, Nat.add_zero] at hsum
    omega
  | cons r p ih =>
    have hr : 0 < r := hpos r (by simp)
    simp only [List.sum_cons] at hsum
    simp only [List.cons_append, read_loop]
    rw [if_neg (by omega)]
    by_cases hc : count + r < B
    · rw [if_pos hc]
      exact ih (count + r) (fun x hx => hpos x (by simp [hx])) (by omega) hc
    · rw [if_neg hc]
      omega

/-- A sequence of positive transfer results that falls short of the
buffer, followed by a zero (EOF) result, makes `read_loop` return the
total transferred. -/
theorem read_loop_eof (p rest : List Nat) (B count : Nat)
    (hpos : ∀ r ∈ p, 0 < r) (hsum : count + p.sum < B) :
    read_loop (p ++ 0 :: rest) B count = count + p.sum := by
  induction p generalizing count with
  | nil =>
    simp [read_loop]
  | cons r p ih =>
    have hr : 0 < r := hpos r (by simp)
    simp only [List.sum_cons] at hsum ⊢
    simp only [List.cons_append, read_loop]
    rw [if_neg (by omega)]
    rw [if_pos (by omega)]
    have h := ih (count + r) (fun x hx => hpos x (by simp [hx])) (by omega)
    simpa [Nat.add_assoc] using h

/-- A sequence of positive acceptance counts that exactly exhausts the
remaining `N - count` bytes drives `write_loop` to return `some N`. -/
theorem write_loop_fills (p : List Nat) (rest : List (Option Nat))
    (N count : Nat)
    (hpos : ∀ r ∈ p, 0 < r) (hsum : count + p.sum = N) (hlt : count < N) :
    write_loop (p.map some ++ rest) N count = some N := by
  induction p generalizing count with
  | nil =>
    simp only [List.sum_nil, Nat.add_zero] at hsum
    omega
  | cons r p ih =>
    have hr : 0 < r := hpos r (by simp)
    simp only [List.sum_cons] at hsum
    simp only [List.map_cons, List.cons_append, write_loop]
    by_cases hc : count + r < N
    · rw [if_pos hc]
      exact ih (count + r) (fun x hx => hpos x (by simp [hx])) (by omega) hc
    · rw [if_neg hc]
      have : count + r = N := by omega
      rw [this]

/-- A failing iteration (the wrapper raising) after some successful
partial writes makes `write_loop` propagate the error. -/
theorem write_loop_error (p : List Nat) (rest : List (Option Nat))
    (N count : Nat)
    (hpos : ∀ r ∈ p, 0 < r) (hsum : count + p.sum < N) :
    write_loop (p.map some ++ none :: rest) N count = none := by
  induction p generalizing count with
  | nil =>
    simp [write_loop]
  | cons r p ih =>
    have hr : 0 < r := hpos r (by simp)
    simp only [List.sum_cons] at hsum
    simp only [List.map_cons, List.cons_append, write_loop]
    rw [if_pos (by omega)]
    exact ih (count + r) (fun x hx => hpos x (by simp [hx])) (by omega)

/-! ## Open-mode translation claims -/

/-- C1 counterexample: the claim says every configuration containing both
`nocreate` and `noreplace` fails to translate, regardless of the other
flags.  But with only `in` additionally set (no `out`), the translation
succeeds and returns `READ`: the contradictory pair is only detected on
the paths that would otherwise request creation. -/
theorem nocreate_noreplace_not_always_rejected :
    (openmode.mk true false false false true true).nocreate = true ∧
    (openmode.mk true false false false true true).noreplace = true ∧
    openmode_to_libssh2_flags (openmode.mk true false false false true true) =
      Except.ok LIBSSH2_FXF_READ := by
  decide

/-- C1 (amended): for a configuration containing both `nocreate` and
`noreplace`, translation fails with the `invalid_argument`
"Cannot combine nocreate and noreplace" if and only if the configuration
would otherwise request creation: `out` is set and either `in` is absent
or `trunc` is present.  (The translation itself is a pure function, so a
failure occurs before any network call.) -/
theorem nocreate_noreplace_rejected_iff_creating (m : openmode)
    (hnc : m.nocreate = true) (hnr : m.noreplace = true) :
    openmode_to_libssh2_flags m =
        Except.error "Cannot combine nocreate and noreplace" ↔
      (m.out = true ∧ (m.«in» = false ∨ m.trunc = true)) := by
  revert hnc hnr
  revert m
  decide

theorem nocreate_noreplace_rejected_iff_creating_witness :
    openmode_to_libssh2_flags (openmode.mk false true false false true true) =
      Except.error "Cannot combine nocreate and noreplace" :=
  (nocreate_noreplace_rejected_iff_creating
      (openmode.mk false true false false true true) rfl rfl).mpr
    (by decide)

/-- C2: for `out` without `in` (and the contradictory `nocreate`+
`noreplace` pair excluded, which claim C1's rule rejects first), the
translation succeeds and the flag word contains `WRITE`; contains `CREAT`
iff `nocreate` is not set; contains `EXCL` iff `noreplace` is set and
`nocreate` is not; and contains `APPEND` if `app` is set, otherwise
`TRUNC`. -/
theorem out_only_flag_translation (m : openmode)
    (hout : m.out = true) (hin : m.«in» = false)
    (hok : ¬(m.nocreate = true ∧ m.noreplace = true)) :
    result_is_ok (openmode_to_libssh2_flags m) = true ∧
    result_has_flag (openmode_to_libssh2_flags m) LIBSSH2_FXF_WRITE = true ∧
    (result_has_flag (openmode_to_libssh2_flags m) LIBSSH2_FXF_CREAT = true ↔
      m.nocreate = false) ∧
    (result_has_flag (openmode_to_libssh2_flags m) LIBSSH2_FXF_EXCL = true ↔
      (m.noreplace = true ∧ m.nocreate = false)) ∧
    (m.app = true →
      result_has_flag (openmode_to_libssh2_flags m) LIBSSH2_FXF_APPEND = true) ∧
    (m.app = false →
      result_has_flag (openmode_to_libssh2_flags m) LIBSSH2_FXF_TRUNC = true) := by
  revert hout hin hok
  revert m
  decide

theorem out_only_flag_translation_witness :
    result_has_flag
      (openmode_to_libssh2_flags (openmode.mk false true false false false true))
      LIBSSH2_FXF_EXCL = true :=
  (out_only_flag_translation (openmode.mk false true false false false true)
      rfl rfl (by decide)).2.2.2.1.mpr (by decide)

/-- C3: for `in` together with `out`, creation is suppressed when `trunc`
is absent — the translation is exactly `READ|WRITE` — and re-enabled when
`trunc` is present (contradictory pair excluded): the flag word then also
contains `TRUNC`, contains `CREAT` iff `nocreate` is not set, and
contains `EXCL` iff `noreplace` is set and `nocreate` is not. -/
theorem in_out_flag_translation (m : openmode)
    (hin : m.«in» = true) (hout : m.out = true)
    (hok : ¬(m.nocreate = true ∧ m.noreplace = true)) :
    (m.trunc = false →
      openmode_to_libssh2_flags m =
        Except.ok (LIBSSH2_FXF_READ ||| LIBSSH2_FXF_WRITE)) ∧
    (m.trunc = true →
      result_is_ok (openmode_to_libssh2_flags m) = true ∧
      result_has_flag (openmode_to_libssh2_flags m) LIBSSH2_FXF_READ = true ∧
      result_has_flag (openmode_to_libssh2_flags m) LIBSSH2_FXF_WRITE = true ∧
      result_has_flag (openmode_to_libssh2_flags m) LIBSSH2_FXF_TRUNC = true ∧
      (result_has_flag (openmode_to_libssh2_flags m) LIBSSH2_FXF_CREAT = true ↔
        m.nocreate = false) ∧
      (result_has_flag (openmode_to_libssh2_flags m) LIBSSH2_FXF_EXCL = true ↔
        (m.noreplace = true ∧ m.nocreate = false))) := by
  revert hin hout hok
  revert m
  decide

theorem in_out_flag_translation_witness :
    openmode_to_libssh2_flags (openmode.mk true true false false true false) =
      Except.ok (LIBSSH2_FXF_READ ||| LIBSSH2_FXF_WRITE) :=
  (in_out_flag_translation (openmode.mk true true false false true false)
      rfl rfl (by decide)).1 rfl

/-- C10: without `out`, the translation is exactly `READ` when `in` is
set and the empty flag word otherwise — never `CREAT`, `TRUNC`, `APPEND`
or `EXCL`, and never an error, whatever `app`, `trunc`, `nocreate` and
`noreplace` are. -/
theorem no_out_flag_translation (m : openmode) (hout : m.out = false) :
    openmode_to_libssh2_flags m =
      Except.ok (if m.«in» then LIBSSH2_FXF_READ else 0) := by
  revert hout
  revert m
  decide

theorem no_out_flag_translation_witness :
    openmode_to_libssh2_flags (openmode.mk true false true true true true) =
      Except.ok (if true then LIBSSH2_FXF_READ else 0) :=
  no_out_flag_translation (openmode.mk true false true true true true) rfl

/-! ## Device effective-mode claims -/

/-- C4 counterexample: the claim says the combined read/write device
(`sftp_io_device`) opens with both `in` and `out` added to the caller's
configuration.  But its constructor passes the caller-supplied mode to
`detail::open_file` unchanged: for an `app`-only configuration the
effective mode contains neither `in` nor `out`. -/
theorem io_device_does_not_force_in_out :
    (sftp_io_device_mode (openmode.mk false false true false false false)).«in» =
      false ∧
    (sftp_io_device_mode (openmode.mk false false true false false false)).out =
      false := by
  decide

/-- C4 (amended): the input-stream device opens with `in` forced into the
caller's configuration and the output-stream device with `out` forced in,
but the combined read/write device passes the caller's configuration
through unchanged; only its default configuration (used when the caller
supplies no mode at all) contains both `in` and `out`. -/
theorem device_effective_modes (m : openmode) :
    (open_input_file_mode m).«in» = true ∧
    (open_output_file_mode m).out = true ∧
    sftp_io_device_mode m = m ∧
    sftp_io_device_default_mode.«in» = true ∧
    sftp_io_device_default_mode.out = true := by
  revert m
  decide

/-! ## Seek claim -/

/-- C5: for every reference point and signed offset (with the computed
target within signed 64-bit range, as the source's own FIXME on overflow
assumes), `detail::seek` computes the target position as the offset
itself from `beg`, the last known position plus the offset from `cur`,
and the fstat-reported file size plus the offset from `end` (one
`fstat_call` round trip, and only then); a negative target fails with
`invalid_seek` and no `seek_call` is ever issued; a non-negative target
issues exactly one `seek_call` to it and returns it. -/
theorem seek_computes_target (tell size : Nat) (off : Int) (way : seekdir)
    (hoff_lo : -(2 ^ 63) ≤ off)
    (hcur : (tell : Int) + off < 2 ^ 63)
    (hend : (size : Int) + off < 2 ^ 63) :
    (((match way with
      | .beg => off
      | .cur => (tell : Int) + off
      | .«end» => (size : Int) + off) : Int) < 0 →
      seek tell (.ok size) off way =
        ((match way with
          | .«end» => [sftp_effect.fstat_call]
          | _ => ([] : List sftp_effect)),
         Except.error seek_error.invalid_seek)) ∧
    (0 ≤ ((match way with
      | .beg => off
      | .cur => (tell : Int) + off
      | .«end» => (size : Int) + off) : Int) →
      seek tell (.ok size) off way =
        ((match way with
          | .«end» =>
            [sftp_effect.fstat_call,
             sftp_effect.seek_call
               ((match way with
                 | .beg => off
                 | .cur => (tell : Int) + off
                 | .«end» => (size : Int) + off) : Int).toNat]
          | _ =>
            [sftp_effect.seek_call
               ((match way with
                 | .beg => off
                 | .cur => (tell : Int) + off
                 | .«end» => (size : Int) + off) : Int).toNat]),
         Except.ok
           ((match way with
             | .beg => off
             | .cur => (tell : Int) + off
             | .«end» => (size : Int) + off) : Int))) := by
  have hc : u64_add_off tell off = (tell : Int) + off :=
    u64_add_off_eq tell off (by omega) hcur
  have he : u64_add_off size off = (size : Int) + off :=
    u64_add_off_eq size off (by omega) hend
  cases way
  case beg =>
    constructor
    · intro h
      simp [seek, h]
    · intro h
      simp [seek, not_lt.mpr h]
  case cur =>
    constructor
    · intro h
      simp [seek, hc, h]
    · intro h
      simp [seek, hc, not_lt.mpr h]
  case «end» =>
    constructor
    · intro h
      simp [seek, he, h]
    · intro h
      simp [seek, he, not_lt.mpr h]

theorem seek_computes_target_witness :
    seek 5 (Except.ok 10) (-3) seekdir.cur =
      ([sftp_effect.seek_call 2], Except.ok 2) := by
  have h :=
    (seek_computes_target 5 10 (-3) seekdir.cur (by decide) (by decide)
        (by decide)).2 (by decide)
  simpa using h

/-! ## Read / write loop claims -/

/-- C6: the read loop keeps issuing transfer calls into the unfilled
remainder of the buffer: with a sequence of positive partial results
summing to the buffer size `B` it returns exactly `B` (later results
untouched — it never returns short merely because one call was short),
and with positive results summing short of `B` followed by a zero
(EOF) result it returns exactly the total transferred. -/
theorem read_loop_full_transfer (B : Nat) (p rest : List Nat)
    (hpos : ∀ r ∈ p, 0 < r) :
    (0 < B → p.sum = B → read_loop (p ++ rest) B 0 = B) ∧
    (p.sum < B → read_loop (p ++ 0 :: rest) B 0 = p.sum) := by
  constructor
  · intro hB hsum
    exact read_loop_fills p rest B 0 hpos (by omega) (by omega)
  · intro hsum
    have h := read_loop_eof p rest B 0 hpos (by omega)
    simpa using h

theorem read_loop_full_transfer_witness :
    read_loop ([3, 2] ++ [7]) 5 0 = 5 :=
  (read_loop_full_transfer 5 [3, 2] [7] (by decide)).1 (by decide) (by decide)

/-- C7: the write loop keeps issuing transfer calls on the unwritten
tail: with a sequence of positive per-call acceptance counts summing to
the data size `N` it returns exactly `some N`; if an iteration raises
(models `none`) after positive partial writes short of `N`, the loop
propagates the error — a silently short write result is impossible. -/
theorem write_loop_full_or_error (N : Nat) (p : List Nat)
    (rest : List (Option Nat)) (hpos : ∀ r ∈ p, 0 < r) :
    (0 < N → p.sum = N → write_loop (p.map some ++ rest) N 0 = some N) ∧
    (p.sum < N → write_loop (p.map some ++ none :: rest) N 0 = none) := by
  constructor
  · intro hN hsum
    exact write_loop_fills p rest N 0 hpos (by omega) (by omega)
  · intro hsum
    exact write_loop_error p rest N 0 hpos (by omega)

theorem write_loop_full_or_error_witness :
    write_loop ([3, 2].map some ++ [some 7]) 5 0 = some 5 :=
  (write_loop_full_or_error 5 [3, 2] [some 7] (by decide)).1 (by decide)
    (by decide)

/-! ## Session lifecycle claims -/

/-- C8: when the handshake in the socket-bound constructor fails, the
trace is allocate, startup, then exactly one `free_handle`, and the
result is the thrown error carrying the protocol error detail
`(ec, error_message)` — never a constructed (partially valid) object. -/
theorem handshake_failure_frees_once (ec : Nat)
    (error_message disconnection_message : String) :
    session_state_ctor (some ec) error_message disconnection_message =
      ([session_event.allocate, session_event.startup_call,
        session_event.free_handle],
       Except.error (ec, error_message)) ∧
    (session_state_ctor (some ec) error_message disconnection_message).1.count
        session_event.free_handle = 1 := by
  exact ⟨rfl, rfl⟩

/-- C9: the destructor attempts graceful disconnection exactly once if
and only if the disconnection message is present (it is set exactly when
the handshake succeeded), its behaviour is identical whatever error the
disconnect call would report (the error is swallowed), and it frees the
handle exactly once.  It returns a plain trace — by construction no
error can propagate out of destruction. -/
theorem dtor_disconnects_iff_handshake_succeeded (st : session_state)
    (ec ec' : Option Nat) :
    session_state_dtor st ec = session_state_dtor st ec' ∧
    ((session_state_dtor st ec).count session_event.disconnect_call = 1 ↔
      st.m_disconnection_message.isSome = true) ∧
    (session_state_dtor st ec).count session_event.free_handle = 1 := by
  rcases st with ⟨msg⟩
  cases msg <;> simp [session_state_dtor, List.count_cons]

end Ssh2Cpp
